import Mathlib

/-!
# Verification of the mcsrvstat client library (src/mcsrvstat)

Shallow embedding of the data-loading and typed-accessor layer of the
library: the request executor `perform_get_request`, the `Base` URL
builder and fetch operations, and the `Server` accessors together with
the `fetch_server_decor` wrapper (src/mcsrvstat/main.py), plus the
value objects and the `ServerPlatform` enum (src/mcsrvstat/ext.py).

Python JSON values are modelled by the inductive `Json`; Python
exceptions by `PyError`; a fallible Python expression of result type
`α` by `Except PyError α`.  The network is modelled as an oracle
`net : String → HTTPOutcome` mapping a URL to either a connection
failure or an HTTP response; a coroutine performing GET requests
becomes a function taking the oracle as an explicit argument.

The accessor layer is embedded at two levels.  The `..._body`
functions are the undecorated accessor functions, taking the payload
(`args[0]`) and projecting it.  The `Server.*` definitions are the
accessors as the class actually wires them: in the source the
decorator factory `fetch_server_decor(type: int=1)` is applied *bare*
(`@fetch_server_decor`, no parentheses) to every status accessor, so
the accessor function is bound to the `type` parameter and the class
attribute becomes the inner `decorated`.  Invoking such an accessor
executes `decorated(server)`, whose body only defines and returns the
`wrapper` async-function object — no coroutine is created and no
request is issued — and `await` of a function object raises
`TypeError`.  Only `get_icon` is decorated correctly, with
`@fetch_server_decor(type=2)`: its wrapper awaits a fresh
`fetch_server_icon` on every invocation.  The small `Awaitable` /
`pyAwait` model below captures exactly this much of Python's await
semantics.
-/

/-- Python/JSON values as decoded by `request.json()`: objects are
association lists in insertion order (Python dicts preserve it). -/
inductive Json : Type where
  | null : Json
  | bool (b : Bool) : Json
  | num (n : Int) : Json
  | str (s : String) : Json
  | arr (l : List Json) : Json
  | obj (m : List (String × Json)) : Json

/-- The Python exceptions that the embedded code can raise:
the three library exceptions of src/mcsrvstat/exceptions.py, plus the
builtin `KeyError`, `TypeError` and `AttributeError`. -/
inductive PyError : Type where
  | dataNotFound (dataType : String) : PyError
  | unstableInternet : PyError
  | invalidServerType : PyError
  | keyError (key : String) : PyError
  | typeError : PyError
  | attributeError : PyError

/-- First-match lookup in an association list; Python dict keys are
unique, so this is exactly `d[k]`-style lookup. -/
def dictLookup : List (String × Json) → String → Option Json
  | [], _ => none
  | (k, v) :: rest, key => if k = key then some v else dictLookup rest key

/-- Python subscripting `data[k]` on a JSON value: a lookup on a
mapping (raising `KeyError` when the key is absent), and `TypeError`
when the value is not a mapping (string-keyed subscripting of lists,
strings, numbers, `None` or bytes raises `TypeError` in Python). -/
def Json.getItem : Json → String → Except PyError Json
  | .obj m, k =>
      match dictLookup m k with
      | some v => .ok v
      | none => .error (.keyError k)
  | _, _ => .error .typeError

/-- Does an `Except` result carry a `DataNotFoundError`? -/
def isDataNotFound {α : Type} : Except PyError α → Bool
  | .error (.dataNotFound _) => true
  | _ => false

/-! ## Value objects (src/mcsrvstat/ext.py)

The Python dataclasses are not type-enforcing: the accessors copy
whatever JSON values the payload holds into the fields verbatim, so
the fields are `Json`-valued here (`Player.name` is the only field
always a string, coming from a dict key). -/

/-- `ServerPlatform` enum: each platform maps to a URL path segment. -/
inductive ServerPlatform : Type where
  | java : ServerPlatform
  | bedrock : ServerPlatform

/-- The `value` of each `ServerPlatform` enum member. -/
def ServerPlatform.value : ServerPlatform → String
  | .java => "2/"
  | .bedrock => "bedrock/2/"

/-- `Player` dataclass. -/
structure Player where
  name : String
  uuid : Json

/-- `ServerMOTD` dataclass. -/
structure ServerMOTD where
  raw : Json
  clean : Json
  html : Json

/-- `ServerInfo` dataclass. -/
structure ServerInfo where
  raw : Json
  clean : Json
  html : Json

/-- `ServerPlugins` dataclass (also returned by `get_mods` in the
source, which constructs `ServerPlugins`, not `ServerMods`). -/
structure ServerPlugins where
  names : Json
  raw : Json

/-- `ServerSoftware` dataclass. -/
structure ServerSoftware where
  version : Json
  software : Json

/-- `ServerDebugInfo` dataclass. -/
structure ServerDebugInfo where
  ping : Json
  query : Json
  srv : Json
  querymismatch : Json
  ipinsrv : Json
  cnameinsrv : Json
  animatedmotd : Json
  cachetime : Json
  apiversion : Json

/-- `ServerPlayerCount` dataclass. -/
structure ServerPlayerCount where
  online : Json
  max : Json

/-! ## Request executor (src/mcsrvstat/main.py, `perform_get_request`) -/

/-- An HTTP response as observed through aiohttp: status code, headers,
and the body (readable as parsed JSON or as raw bytes).  The body is
carried in both decoded forms; `perform_get_request` picks one based on
the Content-Type header, exactly as the source reads either
`request.json()` or `request.read()`. -/
structure HTTPResponse where
  status : Nat
  headers : List (String × String)
  bodyJson : Json
  bodyBytes : List Nat

/-- What the network does for a given URL: either the connection cannot
be established (aiohttp raises `ClientConnectionError`), or a response
arrives. -/
inductive HTTPOutcome : Type where
  | response (r : HTTPResponse) : HTTPOutcome
  | connectionFailure : HTTPOutcome

/-- The two result shapes of `perform_get_request` (`Any | bytes`). -/
inductive FetchResult : Type where
  | jsonData (j : Json) : FetchResult
  | bytesData (b : List Nat) : FetchResult

/-- First-match lookup among response headers (`request.headers[k]`);
a missing header raises `KeyError` in aiohttp's mapping. -/
def headerLookup : List (String × String) → String → Option String
  | [], _ => none
  | (k, v) :: rest, key => if k = key then some v else headerLookup rest key

/-- `perform_get_request(endpoint)`: issue one GET; on connection
failure raise `UnstableInternetError`; on a non-200 status raise
`DataNotFoundError('Request status not OK (failed).')`; if the
Content-Type header equals `image/png` return the raw bytes; otherwise
return the parsed JSON.  The `DataNotFoundError` and the `KeyError`
from a missing Content-Type header are not `ClientConnectionError`s,
so they propagate past the `except` clause, as modelled. -/
def perform_get_request (net : String → HTTPOutcome) (endpoint : String) :
    Except PyError FetchResult :=
  match net endpoint with
  | .connectionFailure => .error .unstableInternet
  | .response r =>
      if r.status ≠ 200 then
        .error (.dataNotFound "Request status not OK (failed).")
      else
        match headerLookup r.headers "Content-Type" with
        | none => .error (.keyError "Content-Type")
        | some ct =>
            if ct = "image/png" then .ok (.bytesData r.bodyBytes)
            else .ok (.jsonData r.bodyJson)

/-! ## Base (src/mcsrvstat/main.py, class `Base`) -/

/-- The `Base.endpoints` class-level dict. -/
def endpoints : List (String × String) :=
  [("server", "https://api.mcsrvstat.us/"), ("icon", "https://api.mcsrvstat.us/icon/")]

/-- Lookup in a string-valued dict literal (for `Base.endpoints`). -/
def strLookup : List (String × String) → String → Option String
  | [], _ => none
  | (k, v) :: rest, key => if k = key then some v else strLookup rest key

/-- `Base`: stores the address and platform given at construction;
performs no network activity.  In this typed embedding `platform` is
always a genuine `ServerPlatform` member, so the source's
`isinstance` guard (raising `InvalidServerTypeError`) never fires. -/
structure Base where
  address : String
  platform : ServerPlatform

/-- The status URL built by `Base.fetch_server`:
`self.endpoints['server'] + self.platform.value + self.address`.
The lookup of the literal key `'server'` in the literal dict always
succeeds; the `none` branch is unreachable. -/
def Base.server_url (b : Base) : String :=
  match strLookup endpoints "server" with
  | some base => base ++ b.platform.value ++ b.address
  | none => ""

/-- The icon URL built by `Base.fetch_server_icon`:
`self.endpoints['icon'] + self.address`. -/
def Base.icon_url (b : Base) : String :=
  match strLookup endpoints "icon" with
  | some base => base ++ b.address
  | none => ""

/-- `Base.fetch_server()`: build the status URL and perform one GET. -/
def Base.fetch_server (b : Base) (net : String → HTTPOutcome) :
    Except PyError FetchResult :=
  perform_get_request net b.server_url

/-- `Base.fetch_server_icon()`: build the icon URL and perform one GET. -/
def Base.fetch_server_icon (b : Base) (net : String → HTTPOutcome) :
    Except PyError FetchResult :=
  perform_get_request net b.icon_url

/-! ## Server accessor bodies (src/mcsrvstat/main.py, class `Server`)

Each `..._body` function is the undecorated accessor function: it takes
the payload `data` (the source's `args[0]`) and projects it.  Python
`try/except KeyError` translates to matching on the `keyError` result
of exactly the lookups inside the `try` block; any other exception
(`TypeError`, `AttributeError`, or a `KeyError` arising in the `else`
block) propagates. -/

/-- Body of `is_online`: `args[0]['online']`. -/
def is_online_body (data : Json) : Except PyError Json :=
  data.getItem "online"

/-- Body of `ip`: `args[0]['ip']`. -/
def ip_body (data : Json) : Except PyError Json :=
  data.getItem "ip"

/-- Body of `port`: `args[0]['port']`. -/
def port_body (data : Json) : Except PyError Json :=
  data.getItem "port"

/-- Body of `hostname`: `args[0]['hostname']`. -/
def hostname_body (data : Json) : Except PyError Json :=
  data.getItem "hostname"

/-- Body of `id`: `args[0]['serverid']`, returning `None` when the key
is absent (`except KeyError: return None`). -/
def id_body (data : Json) : Except PyError (Option Json) :=
  match data.getItem "serverid" with
  | .ok v => .ok (some v)
  | .error (.keyError _) => .ok none
  | .error e => .error e

/-- Body of `gamemode`: `args[0]['gamemode']`, returning `None` when
the key is absent. -/
def gamemode_body (data : Json) : Except PyError (Option Json) :=
  match data.getItem "gamemode" with
  | .ok v => .ok (some v)
  | .error (.keyError _) => .ok none
  | .error e => .error e

/-- Body of `get_motd`: only the lookup of `'motd'` sits inside the
`try`, so a missing outer key becomes
`DataNotFoundError('Failed to fetch server MOTD.')`, while the inner
lookups `motd['raw']`, `motd['clean']`, `motd['html']` run in the
`else` block and their `KeyError`s propagate unconverted. -/
def get_motd_body (data : Json) : Except PyError ServerMOTD :=
  match data.getItem "motd" with
  | .error (.keyError _) => .error (.dataNotFound "Failed to fetch server MOTD.")
  | .error e => .error e
  | .ok motd => do
      let raw ← motd.getItem "raw"
      let clean ← motd.getItem "clean"
      let html ← motd.getItem "html"
      return { raw := raw, clean := clean, html := html }

/-- Body of `get_info`: same structure as `get_motd`, over `'info'`,
with `DataNotFoundError('Failed to fetch server base information.')`. -/
def get_info_body (data : Json) : Except PyError ServerInfo :=
  match data.getItem "info" with
  | .error (.keyError _) => .error (.dataNotFound "Failed to fetch server base information.")
  | .error e => .error e
  | .ok info => do
      let raw ← info.getItem "raw"
      let clean ← info.getItem "clean"
      let html ← info.getItem "html"
      return { raw := raw, clean := clean, html := html }

/-- Body of `get_plugins`: outer lookup of `'plugins'` inside the
`try`; the inner lookups `plugins['names']`, `plugins['raw']` are in
the `else` block (keyword arguments evaluated left to right). -/
def get_plugins_body (data : Json) : Except PyError ServerPlugins :=
  match data.getItem "plugins" with
  | .error (.keyError _) => .error (.dataNotFound "Failed to fetch server plugin data.")
  | .error e => .error e
  | .ok plugins => do
      let names ← plugins.getItem "names"
      let raw ← plugins.getItem "raw"
      return { names := names, raw := raw }

/-- Body of `get_mods`: like `get_plugins` over `'mods'`; the source
constructs a `ServerPlugins` value here (not `ServerMods`). -/
def get_mods_body (data : Json) : Except PyError ServerPlugins :=
  match data.getItem "mods" with
  | .error (.keyError _) => .error (.dataNotFound "Failed to fetch server mods data.")
  | .error e => .error e
  | .ok mods => do
      let names ← mods.getItem "names"
      let raw ← mods.getItem "raw"
      return { names := names, raw := raw }

/-- Body of `get_software`: both lookups `args[0]['version']` and
`args[0]['software']` sit inside the `try`, so a `KeyError` from
either becomes `DataNotFoundError('Failed to fetch server software data.')`. -/
def get_software_body (data : Json) : Except PyError ServerSoftware :=
  match (do
      let version ← data.getItem "version"
      let software ← data.getItem "software"
      return ServerSoftware.mk version software : Except PyError ServerSoftware) with
  | .error (.keyError _) => .error (.dataNotFound "Failed to fetch server software data.")
  | r => r

/-- Body of `get_debug_values`: no `try/except` at all — the lookup
`args[0]['debug']` and every inner field lookup raise plain
`KeyError` when absent. -/
def get_debug_values_body (data : Json) : Except PyError ServerDebugInfo := do
  let debug_values ← data.getItem "debug"
  let ping ← debug_values.getItem "ping"
  let query ← debug_values.getItem "query"
  let srv ← debug_values.getItem "srv"
  let querymismatch ← debug_values.getItem "querymismatch"
  let ipinsrv ← debug_values.getItem "ipinsrv"
  let cnameinsrv ← debug_values.getItem "cnameinsrv"
  let animatedmotd ← debug_values.getItem "animatedmotd"
  let cachetime ← debug_values.getItem "cachetime"
  let apiversion ← debug_values.getItem "apiversion"
  return { ping := ping, query := query, srv := srv, querymismatch := querymismatch,
           ipinsrv := ipinsrv, cnameinsrv := cnameinsrv, animatedmotd := animatedmotd,
           cachetime := cachetime, apiversion := apiversion }

/-- Body of `get_player_by_name`: `uuid = args[0]['players']['uuid']`
inside the `try` (missing keys become
`DataNotFoundError('Failed to fetch player data.')`); then
`if player_name in uuid: return Player(...)`.  When the name is not a
key of the mapping, control falls off the function body and Python
returns `None` — no exception.  Membership testing on a non-mapping
`uuid` value is not exercised by any payload considered here; it is
modelled as the `TypeError` that subscript-style misuse raises, which
like every non-`KeyError` propagates past the `except` clause. -/
def get_player_by_name_body (data : Json) (player_name : String) :
    Except PyError (Option Player) :=
  match (do
      let players ← data.getItem "players"
      players.getItem "uuid" : Except PyError Json) with
  | .error (.keyError _) => .error (.dataNotFound "Failed to fetch player data.")
  | .error e => .error e
  | .ok (.obj m) =>
      match dictLookup m player_name with
      | some v => .ok (some (Player.mk player_name v))
      | none => .ok none
  | .ok _ => .error .typeError

/-- Body of `get_player_count`: keyword arguments evaluated left to
right — `args[0]['players']['online']` then `args[0]['players']['max']`,
all inside the `try`. -/
def get_player_count_body (data : Json) : Except PyError ServerPlayerCount :=
  match (do
      let p1 ← data.getItem "players"
      let onl ← p1.getItem "online"
      let p2 ← data.getItem "players"
      let mx ← p2.getItem "max"
      return ServerPlayerCount.mk onl mx : Except PyError ServerPlayerCount) with
  | .error (.keyError _) => .error (.dataNotFound "Failed to fetch player count data.")
  | r => r

/-- Body of `get_players`: a comprehension over
`args[0]['players']['uuid'].items()` building `Player(name, uuid)` in
mapping order; `except KeyError: return None`.  Calling `.items()` on
a non-mapping value raises `AttributeError`, which propagates. -/
def get_players_body (data : Json) : Except PyError (Option (List Player)) :=
  match (do
      let players ← data.getItem "players"
      players.getItem "uuid" : Except PyError Json) with
  | .error (.keyError _) => .ok none
  | .error e => .error e
  | .ok (.obj m) => .ok (some (m.map fun kv => Player.mk kv.1 kv.2))
  | .ok _ => .error .attributeError

/-! ## The Server facade and the `fetch_server_decor` wiring -/

/-- `Server`: holds only `self.base = Base(address, platform)`; no
payload field, no cache, no loaded/unloaded state. -/
structure Server where
  base : Base

/-- `Server(address, platform)` construction. -/
def Server.make (address : String) (platform : ServerPlatform) : Server :=
  ⟨⟨address, platform⟩⟩

/-- A Python value at an `await` point, as far as this class exercises
it: a coroutine (created by calling an async function), whose body runs
when awaited, or a plain function object (an async function that was
returned without being called), which is not awaitable. -/
inductive Awaitable (α : Type) : Type where
  | coroutine (run : Except PyError α) : Awaitable α
  | functionObject : Awaitable α

/-- Python `await`: awaiting a coroutine runs it to its result;
awaiting a bare function object raises
`TypeError: object function can't be used in 'await' expression`. -/
def pyAwait {α : Type} : Awaitable α → Except PyError α
  | .coroutine run => run
  | .functionObject => .error .typeError

/-- The bare decorator application `@fetch_server_decor` (no
parentheses) used by every status accessor of the class:
`fetch_server_decor(func)` binds the undecorated accessor function to
the `type` parameter and the class attribute becomes the inner
`decorated`.  Invoking the accessor — `server.accessor()` for the
methods, or the property read `server.accessor` — therefore evaluates
`decorated(server)`, whose body only defines the inner
`async def wrapper` and returns that function object.  No coroutine is
created, no fetch is started, and the network oracle is never
consulted; the mis-wired value reaching the caller's `await` is a bare
function object. -/
def fetch_server_decor_bare {α : Type} (_s : Server)
    (_net : String → HTTPOutcome) : Awaitable α :=
  .functionObject

/-- `await server.is_online` (property, bare decoration): awaiting the
returned `wrapper` function object raises `TypeError`; `is_online_body`
is never reached. -/
def Server.is_online (s : Server) (net : String → HTTPOutcome) :
    Except PyError Json :=
  pyAwait (fetch_server_decor_bare s net)

/-- `await server.ip` (property, bare decoration): `TypeError`. -/
def Server.ip (s : Server) (net : String → HTTPOutcome) :
    Except PyError Json :=
  pyAwait (fetch_server_decor_bare s net)

/-- `await server.port` (property, bare decoration): `TypeError`. -/
def Server.port (s : Server) (net : String → HTTPOutcome) :
    Except PyError Json :=
  pyAwait (fetch_server_decor_bare s net)

/-- `await server.hostname` (property, bare decoration): `TypeError`. -/
def Server.hostname (s : Server) (net : String → HTTPOutcome) :
    Except PyError Json :=
  pyAwait (fetch_server_decor_bare s net)

/-- `await server.id` (property, bare decoration): `TypeError`. -/
def Server.id (s : Server) (net : String → HTTPOutcome) :
    Except PyError (Option Json) :=
  pyAwait (fetch_server_decor_bare s net)

/-- `await server.gamemode` (property, bare decoration): `TypeError`. -/
def Server.gamemode (s : Server) (net : String → HTTPOutcome) :
    Except PyError (Option Json) :=
  pyAwait (fetch_server_decor_bare s net)

/-- `await server.get_motd()` (bare decoration): `TypeError`;
`get_motd_body` is never reached. -/
def Server.get_motd (s : Server) (net : String → HTTPOutcome) :
    Except PyError ServerMOTD :=
  pyAwait (fetch_server_decor_bare s net)

/-- `await server.get_info()` (bare decoration): `TypeError`. -/
def Server.get_info (s : Server) (net : String → HTTPOutcome) :
    Except PyError ServerInfo :=
  pyAwait (fetch_server_decor_bare s net)

/-- `await server.get_plugins()` (bare decoration): `TypeError`. -/
def Server.get_plugins (s : Server) (net : String → HTTPOutcome) :
    Except PyError ServerPlugins :=
  pyAwait (fetch_server_decor_bare s net)

/-- `await server.get_mods()` (bare decoration): `TypeError`. -/
def Server.get_mods (s : Server) (net : String → HTTPOutcome) :
    Except PyError ServerPlugins :=
  pyAwait (fetch_server_decor_bare s net)

/-- `await server.get_software()` (bare decoration): `TypeError`. -/
def Server.get_software (s : Server) (net : String → HTTPOutcome) :
    Except PyError ServerSoftware :=
  pyAwait (fetch_server_decor_bare s net)

/-- `await server.get_debug_values()` (bare decoration): `TypeError`. -/
def Server.get_debug_values (s : Server) (net : String → HTTPOutcome) :
    Except PyError ServerDebugInfo :=
  pyAwait (fetch_server_decor_bare s net)

/-- `await server.get_player_by_name(player_name=...)`: the call
`decorated(server, player_name=...)` raises `TypeError` outright —
`decorated(func)` accepts no `player_name` keyword, and the inner
`async def wrapper(self)` accepts none either, so the argument cannot
reach `get_player_by_name_body` under any wiring and no fetch is
started. -/
def Server.get_player_by_name (_s : Server) (_net : String → HTTPOutcome)
    (_player_name : String) : Except PyError (Option Player) :=
  .error .typeError

/-- `await server.get_player_count()` (bare decoration): `TypeError`. -/
def Server.get_player_count (s : Server) (net : String → HTTPOutcome) :
    Except PyError ServerPlayerCount :=
  pyAwait (fetch_server_decor_bare s net)

/-- `await server.get_players()` (bare decoration): `TypeError`. -/
def Server.get_players (s : Server) (net : String → HTTPOutcome) :
    Except PyError (Option (List Player)) :=
  pyAwait (fetch_server_decor_bare s net)

/-- `Icon` (ext.py): stores the data handed to it verbatim. -/
structure Icon where
  data : FetchResult

/-- `await server.get_icon()` — the one correctly applied decoration,
`@fetch_server_decor(type=2)`: `get_icon = decorated(get_icon_func)`
is the `wrapper` itself, so the call produces a genuine coroutine.
Awaiting it runs `data = await self.base.fetch_server_icon()` (the
`type == 2` branch, correctly awaited) and returns
`func(self, data) = Icon(args[0])`: a fresh icon fetch on every
invocation. -/
def Server.get_icon (s : Server) (net : String → HTTPOutcome) :
    Except PyError Icon :=
  pyAwait (.coroutine (match s.base.fetch_server_icon net with
    | .error e => .error e
    | .ok data => .ok (Icon.mk data)))

/-! ## Concrete fixtures used by witnesses and counterexamples -/

/-- A representative status payload as returned by the API. -/
def samplePayload : Json :=
  .obj [("online", .bool true),
        ("ip", .str "198.51.100.3"),
        ("motd", .obj [("raw", .str "a"), ("clean", .str "b"), ("html", .str "c")]),
        ("players", .obj [("online", .num 2), ("max", .num 20),
                          ("uuid", .obj [("Alice", .str "u-1"), ("Bob", .str "u-2")])])]

/-- Headers of a JSON response. -/
def jsonHeaders : List (String × String) := [("Content-Type", "application/json")]

/-- A network that answers every URL with a 200 JSON response carrying
`samplePayload`. -/
def goodNet : String → HTTPOutcome :=
  fun _ => .response ⟨200, jsonHeaders, samplePayload, []⟩

/-- A network on which no connection can be established. -/
def downNet : String → HTTPOutcome :=
  fun _ => .connectionFailure

/-- A network that answers every URL with a 404 response. -/
def notFoundNet : String → HTTPOutcome :=
  fun _ => .response ⟨404, jsonHeaders, .null, []⟩

/-- A network that answers every URL with a 200 `image/png` response
carrying a few icon bytes. -/
def pngNet : String → HTTPOutcome :=
  fun _ => .response ⟨200, [("Content-Type", "image/png")], .null, [137, 80, 78, 71]⟩

/-- A network serving the same PNG response on one specific icon URL
and failing to connect anywhere else. -/
def pngNetAlt : String → HTTPOutcome := fun u =>
  if u = "https://api.mcsrvstat.us/icon/play.example.org" then
    .response ⟨200, [("Content-Type", "image/png")], .null, [137, 80, 78, 71]⟩
  else .connectionFailure

/-- A fixed server instance for concrete evaluations. -/
def srv1 : Server := Server.make "play.example.org" ServerPlatform.java

/-! ## Helper lemmas -/

/-- Subscripting a mapping whose lookup succeeds. -/
theorem getItem_obj_some {m : List (String × Json)} {k : String} {v : Json}
    (h : dictLookup m k = some v) : Json.getItem (.obj m) k = .ok v := by
  simp [Json.getItem, h]

/-- Subscripting a mapping whose lookup fails raises `KeyError`. -/
theorem getItem_obj_none {m : List (String × Json)} {k : String}
    (h : dictLookup m k = none) : Json.getItem (.obj m) k = .error (.keyError k) := by
  simp [Json.getItem, h]

/-- Sequencing after a successful step. -/
@[simp] theorem pyBind_ok {α β : Type} (a : α) (f : α → Except PyError β) :
    (Except.ok a >>= f : Except PyError β) = f a := rfl

/-- An exception propagates through sequencing. -/
@[simp] theorem pyBind_error {α β : Type} (e : PyError) (f : α → Except PyError β) :
    (Except.error e >>= f : Except PyError β) = Except.error e := rfl

/-- C2: for every address and platform, `Base.fetch_server` performs its
GET against exactly `base_status_endpoint ++ path_segment(platform) ++
address`, where the Java segment is `"2/"` and the Bedrock segment is
`"bedrock/2/"`. -/
theorem fetch_server_url_concatenation (address : String) (p : ServerPlatform)
    (net : String → HTTPOutcome) :
    (Base.mk address p).fetch_server net
      = perform_get_request net ("https://api.mcsrvstat.us/" ++ p.value ++ address)
    ∧ (Base.mk address p).server_url = "https://api.mcsrvstat.us/" ++ p.value ++ address
    ∧ ServerPlatform.java.value = "2/"
    ∧ ServerPlatform.bedrock.value = "bedrock/2/" :=
  ⟨rfl, rfl, rfl, rfl⟩

/-- C3: whenever the network yields an HTTP response whose status is not
200, `perform_get_request` fails with `DataNotFoundError` carrying the
human-readable message of the source, never a silently-empty success. -/
theorem perform_get_request_non_200_data_not_found
    (net : String → HTTPOutcome) (endpoint : String) (r : HTTPResponse)
    (hnet : net endpoint = .response r) (hstatus : r.status ≠ 200) :
    perform_get_request net endpoint
      = .error (.dataNotFound "Request status not OK (failed).") := by
  unfold perform_get_request
  rw [hnet]
  simp [hstatus]

/-- C3 witness: a concrete 404 response yields the `DataNotFoundError`. -/
theorem perform_get_request_non_200_data_not_found_witness :
    perform_get_request notFoundNet "https://api.mcsrvstat.us/2/play.example.org"
      = .error (.dataNotFound "Request status not OK (failed).") :=
  perform_get_request_non_200_data_not_found notFoundNet
    "https://api.mcsrvstat.us/2/play.example.org" ⟨404, jsonHeaders, .null, []⟩ rfl (by decide)

/-- C4: whenever the connection cannot be established, the request
executor fails with `UnstableInternetError`; the transport-level failure
never leaks past `perform_get_request`. -/
theorem perform_get_request_connection_failure_unstable_internet
    (net : String → HTTPOutcome) (endpoint : String)
    (h : net endpoint = .connectionFailure) :
    perform_get_request net endpoint = .error .unstableInternet := by
  unfold perform_get_request
  rw [h]

/-- C4 witness: a concrete unreachable network yields `UnstableInternetError`. -/
theorem perform_get_request_connection_failure_unstable_internet_witness :
    perform_get_request downNet "https://api.mcsrvstat.us/2/play.example.org"
      = .error .unstableInternet :=
  perform_get_request_connection_failure_unstable_internet downNet
    "https://api.mcsrvstat.us/2/play.example.org" rfl

/-- C1 counterexample: on a freshly constructed `Server`, invoking
`get_motd` does not fail with any unloaded-state error — no such error
exists — nor does it read a payload: awaiting the mis-wired accessor
raises `TypeError`, identically on a perfectly healthy network and on a
dead one, with no request issued.  And the claim's "no accessor ever
performs network activity of its own" fails on the one correctly wired
accessor: `get_icon` issues its own fetch — its outcome tracks the
live network. -/
theorem accessor_await_typeerror_not_unloaded_error :
    Server.get_motd srv1 goodNet = .error .typeError
    ∧ Server.get_motd srv1 downNet = .error .typeError
    ∧ Server.get_icon srv1 pngNet = .ok (Icon.mk (.bytesData [137, 80, 78, 71]))
    ∧ Server.get_icon srv1 downNet = .error .unstableInternet :=
  ⟨rfl, rfl, rfl, rfl⟩

/-- C1 (amended): no accessor reads a cached payload and no
unloaded-state error exists.  Every status accessor, decorated bare,
fails with `TypeError` when awaited — before any fetch and before any
key lookup, uniformly, its result independent of the network; the one
correctly decorated accessor, `get_icon`, performs a fresh icon fetch
on every invocation, so its result is a function of the network's
answer at the icon URL at that moment. -/
theorem status_accessors_typeerror_icon_fetches_fresh (s : Server)
    (n1 n2 : String → HTTPOutcome)
    (h : n1 s.base.icon_url = n2 s.base.icon_url) :
    Server.is_online s n1 = .error .typeError
    ∧ Server.get_motd s n1 = .error .typeError
    ∧ Server.get_players s n1 = .error .typeError
    ∧ Server.get_debug_values s n1 = .error .typeError
    ∧ Server.get_motd s n1 = Server.get_motd s n2
    ∧ Server.get_icon s n1 = Server.get_icon s n2
    ∧ (n1 s.base.icon_url = .connectionFailure →
        Server.get_icon s n1 = .error .unstableInternet) := by
  refine ⟨rfl, rfl, rfl, rfl, rfl, ?_, ?_⟩
  · unfold Server.get_icon Base.fetch_server_icon perform_get_request
    rw [h]
  · intro hdown
    unfold Server.get_icon Base.fetch_server_icon perform_get_request
    rw [hdown]
    rfl

/-- C1 witness: at a concrete server, the status accessor fails with
`TypeError` even on a healthy network, and two networks that agree on
the icon URL give `get_icon` identical fresh-fetch results. -/
theorem status_accessors_typeerror_icon_fetches_fresh_witness :
    Server.get_motd srv1 pngNet = .error .typeError
    ∧ Server.get_icon srv1 pngNet = Server.get_icon srv1 pngNetAlt :=
  ⟨(status_accessors_typeerror_icon_fetches_fresh srv1 pngNet pngNetAlt rfl).2.1,
   (status_accessors_typeerror_icon_fetches_fresh srv1 pngNet pngNetAlt rfl).2.2.2.2.2.1⟩

/-- C5 counterexample: on a payload whose `players.uuid` mapping exists
but does not contain the requested name, the `get_player_by_name` body
silently returns `None` — it does not raise `DataNotFoundError`. -/
theorem get_player_by_name_missing_name_silent_none :
    get_player_by_name_body (Json.obj [("players", Json.obj [("uuid", Json.obj [])])]) "X"
      = .ok none
    ∧ isDataNotFound
        (get_player_by_name_body (Json.obj [("players", Json.obj [("uuid", Json.obj [])])]) "X")
      = false :=
  ⟨rfl, rfl⟩

/-- C5 (amended): given a fetched payload, the `get_player_by_name`
body looks the name up in the payload's `players.uuid` mapping with an
exact, case-sensitive match; it fails with `DataNotFoundError` when
the `players` structure or its `uuid` mapping is absent, returns the
matching `Player` on a hit, and silently returns `None` when the
mapping is present but the name is not one of its keys. -/
theorem get_player_by_name_cases (d p m : List (String × Json)) (name : String) (v : Json) :
    (dictLookup d "players" = none →
      get_player_by_name_body (.obj d) name
        = .error (.dataNotFound "Failed to fetch player data."))
    ∧ (dictLookup d "players" = some (.obj p) → dictLookup p "uuid" = none →
      get_player_by_name_body (.obj d) name
        = .error (.dataNotFound "Failed to fetch player data."))
    ∧ (dictLookup d "players" = some (.obj p) → dictLookup p "uuid" = some (.obj m) →
      dictLookup m name = some v →
      get_player_by_name_body (.obj d) name = .ok (some (Player.mk name v)))
    ∧ (dictLookup d "players" = some (.obj p) → dictLookup p "uuid" = some (.obj m) →
      dictLookup m name = none →
      get_player_by_name_body (.obj d) name = .ok none) := by
  refine ⟨?_, ?_, ?_, ?_⟩
  · intro h1
    simp [get_player_by_name_body, getItem_obj_none h1]
  · intro h1 h2
    simp [get_player_by_name_body, getItem_obj_some h1, getItem_obj_none h2]
  · intro h1 h2 h3
    simp [get_player_by_name_body, getItem_obj_some h1, getItem_obj_some h2, h3]
  · intro h1 h2 h3
    simp [get_player_by_name_body, getItem_obj_some h1, getItem_obj_some h2, h3]

/-- C5 witness: the three behaviors at concrete payloads. -/
theorem get_player_by_name_cases_witness :
    get_player_by_name_body (Json.obj []) "Alice"
      = .error (.dataNotFound "Failed to fetch player data.")
    ∧ get_player_by_name_body samplePayload "Alice"
      = .ok (some (Player.mk "Alice" (.str "u-1")))
    ∧ get_player_by_name_body samplePayload "Carol" = .ok none :=
  ⟨(get_player_by_name_cases [] [] [] "Alice" .null).1 rfl,
   (get_player_by_name_cases
      [("online", .bool true), ("ip", .str "198.51.100.3"),
       ("motd", .obj [("raw", .str "a"), ("clean", .str "b"), ("html", .str "c")]),
       ("players", .obj [("online", .num 2), ("max", .num 20),
                         ("uuid", .obj [("Alice", .str "u-1"), ("Bob", .str "u-2")])])]
      [("online", .num 2), ("max", .num 20),
       ("uuid", .obj [("Alice", .str "u-1"), ("Bob", .str "u-2")])]
      [("Alice", .str "u-1"), ("Bob", .str "u-2")]
      "Alice" (.str "u-1")).2.2.1 rfl rfl rfl,
   (get_player_by_name_cases
      [("online", .bool true), ("ip", .str "198.51.100.3"),
       ("motd", .obj [("raw", .str "a"), ("clean", .str "b"), ("html", .str "c")]),
       ("players", .obj [("online", .num 2), ("max", .num 20),
                         ("uuid", .obj [("Alice", .str "u-1"), ("Bob", .str "u-2")])])]
      [("online", .num 2), ("max", .num 20),
       ("uuid", .obj [("Alice", .str "u-1"), ("Bob", .str "u-2")])]
      [("Alice", .str "u-1"), ("Bob", .str "u-2")]
      "Carol" .null).2.2.2 rfl rfl rfl⟩

/-- C6: `get_players` returns `None` (not an error) whenever the
`players` structure or its `uuid` mapping is absent, and when the
mapping is present it projects every entry into a `Player`, in the
payload's own order; an empty mapping yields the empty list. -/
theorem get_players_cases (d p m : List (String × Json)) :
    (dictLookup d "players" = none → get_players_body (.obj d) = .ok none)
    ∧ (dictLookup d "players" = some (.obj p) → dictLookup p "uuid" = none →
        get_players_body (.obj d) = .ok none)
    ∧ (dictLookup d "players" = some (.obj p) → dictLookup p "uuid" = some (.obj m) →
        get_players_body (.obj d) = .ok (some (m.map fun kv => Player.mk kv.1 kv.2))) := by
  refine ⟨?_, ?_, ?_⟩
  · intro h1
    simp [get_players_body, getItem_obj_none h1]
  · intro h1 h2
    simp [get_players_body, getItem_obj_some h1, getItem_obj_none h2]
  · intro h1 h2
    simp [get_players_body, getItem_obj_some h1, getItem_obj_some h2]

/-- C6 witness: absent structure, absent list, and a two-player mapping
(order preserved), plus the empty-mapping case. -/
theorem get_players_cases_witness :
    get_players_body (Json.obj []) = .ok none
    ∧ get_players_body (Json.obj [("players", Json.obj [])]) = .ok none
    ∧ get_players_body (Json.obj [("players", Json.obj [("uuid", Json.obj [])])])
        = .ok (some [])
    ∧ get_players_body (Json.obj [("players", Json.obj [("uuid",
          Json.obj [("Alice", Json.str "u-1"), ("Bob", Json.str "u-2")])])])
        = .ok (some [Player.mk "Alice" (Json.str "u-1"), Player.mk "Bob" (Json.str "u-2")]) :=
  ⟨(get_players_cases [] [] []).1 rfl,
   (get_players_cases [("players", Json.obj [])] [] []).2.1 rfl rfl,
   (get_players_cases [("players", Json.obj [("uuid", Json.obj [])])]
      [("uuid", Json.obj [])] []).2.2 rfl rfl,
   (get_players_cases
      [("players", Json.obj [("uuid",
          Json.obj [("Alice", Json.str "u-1"), ("Bob", Json.str "u-2")])])]
      [("uuid", Json.obj [("Alice", Json.str "u-1"), ("Bob", Json.str "u-2")])]
      [("Alice", Json.str "u-1"), ("Bob", Json.str "u-2")]).2.2 rfl rfl⟩

/-- C7: whenever the payload's `motd` mapping is present with all three
sub-fields, `get_motd` copies the three values verbatim into
`ServerMOTD`. -/
theorem get_motd_round_trip (d m : List (String × Json)) (raw clean html : Json)
    (h1 : dictLookup d "motd" = some (.obj m))
    (h2 : dictLookup m "raw" = some raw)
    (h3 : dictLookup m "clean" = some clean)
    (h4 : dictLookup m "html" = some html) :
    get_motd_body (.obj d) = .ok (ServerMOTD.mk raw clean html) := by
  simp [get_motd_body, getItem_obj_some h1, getItem_obj_some h2,
        getItem_obj_some h3, getItem_obj_some h4]

/-- C7 witness: the spec's exact round-trip payload
`{"motd": {"raw": "a", "clean": "b", "html": "c"}}`. -/
theorem get_motd_round_trip_witness :
    get_motd_body (Json.obj [("motd",
        Json.obj [("raw", Json.str "a"), ("clean", Json.str "b"), ("html", Json.str "c")])])
      = .ok (ServerMOTD.mk (Json.str "a") (Json.str "b") (Json.str "c")) :=
  get_motd_round_trip
    [("motd", Json.obj [("raw", Json.str "a"), ("clean", Json.str "b"), ("html", Json.str "c")])]
    [("raw", Json.str "a"), ("clean", Json.str "b"), ("html", Json.str "c")]
    (Json.str "a") (Json.str "b") (Json.str "c") rfl rfl rfl rfl

/-- C8 counterexample: on a payload without the `debug` key,
`get_debug_values` raises a plain `KeyError`, not `DataNotFoundError`
(the lookup `args[0]['debug']` is the only accessor lookup in the class
with no `try/except KeyError` conversion around it). -/
theorem get_debug_values_missing_debug_not_data_not_found :
    get_debug_values_body (Json.obj []) = .error (.keyError "debug")
    ∧ isDataNotFound (get_debug_values_body (Json.obj [])) = false :=
  ⟨rfl, rfl⟩

/-- C8 (amended): for every payload mapping without the `debug` key,
`get_debug_values` fails with the plain `KeyError` for `'debug'`. -/
theorem get_debug_values_missing_debug_raises_key_error (d : List (String × Json))
    (h : dictLookup d "debug" = none) :
    get_debug_values_body (.obj d) = .error (.keyError "debug") := by
  simp [get_debug_values_body, getItem_obj_none h]

/-- C8 witness: the empty payload. -/
theorem get_debug_values_missing_debug_raises_key_error_witness :
    get_debug_values_body (Json.obj []) = .error (.keyError "debug") :=
  get_debug_values_missing_debug_raises_key_error [] rfl

/-- C9 counterexample: the software accessor does not return a
no-value result when the `software` key is missing — it raises
`DataNotFoundError` (both of its lookups sit inside its
`try/except KeyError` block); `get_plugins` and `get_mods` likewise
raise `DataNotFoundError` rather than returning `None` when their key
is absent. -/
theorem optional_accessors_raise_data_not_found :
    get_software_body (Json.obj [("version", Json.str "1.20")])
      = .error (.dataNotFound "Failed to fetch server software data.")
    ∧ isDataNotFound (get_software_body (Json.obj [("version", Json.str "1.20")])) = true
    ∧ get_plugins_body (Json.obj [])
      = .error (.dataNotFound "Failed to fetch server plugin data.")
    ∧ get_mods_body (Json.obj [])
      = .error (.dataNotFound "Failed to fetch server mods data.") :=
  ⟨rfl, rfl, rfl, rfl⟩

/-- C9 (amended): among the accessors the spec lists as optional, only
`id`, `gamemode` and `get_players` return a language-level `None` when
their key is absent; `get_plugins`, `get_mods` and `get_software`
instead raise `DataNotFoundError` on an absent key (and no standalone
`eula_blocked`, `version` or `software` accessor exists — version and
software are reachable only through `get_software`). -/
theorem optional_accessor_behavior (d : List (String × Json)) :
    (dictLookup d "serverid" = none → id_body (.obj d) = .ok none)
    ∧ (dictLookup d "gamemode" = none → gamemode_body (.obj d) = .ok none)
    ∧ (dictLookup d "players" = none → get_players_body (.obj d) = .ok none)
    ∧ (dictLookup d "plugins" = none →
        get_plugins_body (.obj d) = .error (.dataNotFound "Failed to fetch server plugin data."))
    ∧ (dictLookup d "mods" = none →
        get_mods_body (.obj d) = .error (.dataNotFound "Failed to fetch server mods data."))
    ∧ (dictLookup d "version" = none →
        get_software_body (.obj d) = .error (.dataNotFound "Failed to fetch server software data.")) := by
  refine ⟨?_, ?_, ?_, ?_, ?_, ?_⟩
  · intro h; simp [id_body, getItem_obj_none h]
  · intro h; simp [gamemode_body, getItem_obj_none h]
  · intro h; simp [get_players_body, getItem_obj_none h]
  · intro h; simp [get_plugins_body, getItem_obj_none h]
  · intro h; simp [get_mods_body, getItem_obj_none h]
  · intro h; simp [get_software_body, getItem_obj_none h]

/-- C9 witness: all six behaviors at the empty payload. -/
theorem optional_accessor_behavior_witness :
    id_body (Json.obj []) = .ok none
    ∧ gamemode_body (Json.obj []) = .ok none
    ∧ get_players_body (Json.obj []) = .ok none
    ∧ get_plugins_body (Json.obj [])
        = .error (.dataNotFound "Failed to fetch server plugin data.")
    ∧ get_mods_body (Json.obj [])
        = .error (.dataNotFound "Failed to fetch server mods data.")
    ∧ get_software_body (Json.obj [])
        = .error (.dataNotFound "Failed to fetch server software data.") :=
  ⟨(optional_accessor_behavior []).1 rfl,
   (optional_accessor_behavior []).2.1 rfl,
   (optional_accessor_behavior []).2.2.1 rfl,
   (optional_accessor_behavior []).2.2.2.1 rfl,
   (optional_accessor_behavior []).2.2.2.2.1 rfl,
   (optional_accessor_behavior []).2.2.2.2.2 rfl⟩

/-- C10: for `get_motd`, `get_info`, `get_plugins` and `get_mods`, the
`DataNotFoundError` conversion covers only the outer-key lookup; when
the outer key is present (as a mapping) but a required inner key is
missing, the accessor raises the plain `KeyError` of the first missing
inner key in evaluation order — never `DataNotFoundError` (the
`KeyError` result below is a distinct constructor from
`dataNotFound`). -/
theorem inner_key_missing_plain_key_error (d m : List (String × Json)) :
    (dictLookup d "motd" = some (.obj m) → dictLookup m "raw" = none →
      get_motd_body (.obj d) = .error (.keyError "raw"))
    ∧ (∀ rv, dictLookup d "motd" = some (.obj m) → dictLookup m "raw" = some rv →
      dictLookup m "clean" = none →
      get_motd_body (.obj d) = .error (.keyError "clean"))
    ∧ (∀ rv cv, dictLookup d "motd" = some (.obj m) → dictLookup m "raw" = some rv →
      dictLookup m "clean" = some cv → dictLookup m "html" = none →
      get_motd_body (.obj d) = .error (.keyError "html"))
    ∧ (dictLookup d "info" = some (.obj m) → dictLookup m "raw" = none →
      get_info_body (.obj d) = .error (.keyError "raw"))
    ∧ (∀ rv, dictLookup d "info" = some (.obj m) → dictLookup m "raw" = some rv →
      dictLookup m "clean" = none →
      get_info_body (.obj d) = .error (.keyError "clean"))
    ∧ (∀ rv cv, dictLookup d "info" = some (.obj m) → dictLookup m "raw" = some rv →
      dictLookup m "clean" = some cv → dictLookup m "html" = none →
      get_info_body (.obj d) = .error (.keyError "html"))
    ∧ (dictLookup d "plugins" = some (.obj m) → dictLookup m "names" = none →
      get_plugins_body (.obj d) = .error (.keyError "names"))
    ∧ (∀ nv, dictLookup d "plugins" = some (.obj m) → dictLookup m "names" = some nv →
      dictLookup m "raw" = none →
      get_plugins_body (.obj d) = .error (.keyError "raw"))
    ∧ (dictLookup d "mods" = some (.obj m) → dictLookup m "names" = none →
      get_mods_body (.obj d) = .error (.keyError "names"))
    ∧ (∀ nv, dictLookup d "mods" = some (.obj m) → dictLookup m "names" = some nv →
      dictLookup m "raw" = none →
      get_mods_body (.obj d) = .error (.keyError "raw")) := by
  refine ⟨?_, ?_, ?_, ?_, ?_, ?_, ?_, ?_, ?_, ?_⟩
  · intro h1 h2
    simp [get_motd_body, getItem_obj_some h1, getItem_obj_none h2]
  · intro rv h1 h2 h3
    simp [get_motd_body, getItem_obj_some h1, getItem_obj_some h2, getItem_obj_none h3]
  · intro rv cv h1 h2 h3 h4
    simp [get_motd_body, getItem_obj_some h1, getItem_obj_some h2,
          getItem_obj_some h3, getItem_obj_none h4]
  · intro h1 h2
    simp [get_info_body, getItem_obj_some h1, getItem_obj_none h2]
  · intro rv h1 h2 h3
    simp [get_info_body, getItem_obj_some h1, getItem_obj_some h2, getItem_obj_none h3]
  · intro rv cv h1 h2 h3 h4
    simp [get_info_body, getItem_obj_some h1, getItem_obj_some h2,
          getItem_obj_some h3, getItem_obj_none h4]
  · intro h1 h2
    simp [get_plugins_body, getItem_obj_some h1, getItem_obj_none h2]
  · intro nv h1 h2 h3
    simp [get_plugins_body, getItem_obj_some h1, getItem_obj_some h2, getItem_obj_none h3]
  · intro h1 h2
    simp [get_mods_body, getItem_obj_some h1, getItem_obj_none h2]
  · intro nv h1 h2 h3
    simp [get_mods_body, getItem_obj_some h1, getItem_obj_some h2, getItem_obj_none h3]

/-- C10 witness: every branch at a concrete payload — each accessor,
with the outer key present but an inner key missing, yields the plain
`KeyError` of that inner key. -/
theorem inner_key_missing_plain_key_error_witness :
    get_motd_body (Json.obj [("motd", Json.obj [])]) = .error (.keyError "raw")
    ∧ get_motd_body (Json.obj [("motd", Json.obj [("raw", Json.str "a")])])
        = .error (.keyError "clean")
    ∧ get_motd_body (Json.obj [("motd",
          Json.obj [("raw", Json.str "a"), ("clean", Json.str "b")])])
        = .error (.keyError "html")
    ∧ get_info_body (Json.obj [("info", Json.obj [])]) = .error (.keyError "raw")
    ∧ get_info_body (Json.obj [("info", Json.obj [("raw", Json.str "a")])])
        = .error (.keyError "clean")
    ∧ get_info_body (Json.obj [("info",
          Json.obj [("raw", Json.str "a"), ("clean", Json.str "b")])])
        = .error (.keyError "html")
    ∧ get_plugins_body (Json.obj [("plugins", Json.obj [])]) = .error (.keyError "names")
    ∧ get_plugins_body (Json.obj [("plugins", Json.obj [("names", Json.arr [])])])
        = .error (.keyError "raw")
    ∧ get_mods_body (Json.obj [("mods", Json.obj [])]) = .error (.keyError "names")
    ∧ get_mods_body (Json.obj [("mods", Json.obj [("names", Json.arr [])])])
        = .error (.keyError "raw") :=
  ⟨(inner_key_missing_plain_key_error [("motd", Json.obj [])] []).1 rfl rfl,
   (inner_key_missing_plain_key_error [("motd", Json.obj [("raw", Json.str "a")])]
      [("raw", Json.str "a")]).2.1 (Json.str "a") rfl rfl rfl,
   (inner_key_missing_plain_key_error
      [("motd", Json.obj [("raw", Json.str "a"), ("clean", Json.str "b")])]
      [("raw", Json.str "a"), ("clean", Json.str "b")]).2.2.1
      (Json.str "a") (Json.str "b") rfl rfl rfl rfl,
   (inner_key_missing_plain_key_error [("info", Json.obj [])] []).2.2.2.1 rfl rfl,
   (inner_key_missing_plain_key_error [("info", Json.obj [("raw", Json.str "a")])]
      [("raw", Json.str "a")]).2.2.2.2.1 (Json.str "a") rfl rfl rfl,
   (inner_key_missing_plain_key_error
      [("info", Json.obj [("raw", Json.str "a"), ("clean", Json.str "b")])]
      [("raw", Json.str "a"), ("clean", Json.str "b")]).2.2.2.2.2.1
      (Json.str "a") (Json.str "b") rfl rfl rfl rfl,
   (inner_key_missing_plain_key_error [("plugins", Json.obj [])] []).2.2.2.2.2.2.1 rfl rfl,
   (inner_key_missing_plain_key_error [("plugins", Json.obj [("names", Json.arr [])])]
      [("names", Json.arr [])]).2.2.2.2.2.2.2.1 (Json.arr []) rfl rfl rfl,
   (inner_key_missing_plain_key_error [("mods", Json.obj [])] []).2.2.2.2.2.2.2.2.1 rfl rfl,
   (inner_key_missing_plain_key_error [("mods", Json.obj [("names", Json.arr [])])]
      [("names", Json.arr [])]).2.2.2.2.2.2.2.2.2 (Json.arr []) rfl rfl rfl⟩
